import Mathlib

/-!
# Verification of the doracxx dependency/build engine specification

This development gives a shallow embedding, in Lean 4, of the parts of the
doracxx build tool that the specification talks about: the cache-key
resolver (`cache.py`), the system-dependency probe (`dependencies.py`),
the configuration parser (`config.py`), and the artifact discovery,
glue-source filtering, process execution and exit-code logic of
`build_cxx_node.py`.  Filesystem and subprocess effects are abstracted
into explicit parameters (an abstract directory tree, an abstract probe
environment, an abstract process behaviour); the pure decision logic is
translated line by line from the Python source.
-/

namespace Doracxx

/-! ## cache.py: sanitize_for_filesystem -/

/-- The characters replaced by an underscore in `sanitize_for_filesystem`
(the Python regex character class used by `re.sub`). -/
def reservedChars : List Char :=
  ['/', '\\', ':', '*', '?', Char.ofNat 34, '<', '>', '|', '^', Char.ofNat 123, Char.ofNat 125]

/-- Whether a character belongs to the reserved (path-hostile) class. -/
def isReserved (c : Char) : Bool := reservedChars.contains c

/-- One character of the `re.sub` replacement step. -/
def replChar (c : Char) : Char := if isReserved c then '_' else c

/-- Characters removed by the Python `str.strip('. ')` call. -/
def isStripChar (c : Char) : Bool := c = '.' || c = ' '

/-- The `str.strip('. ')` step: remove leading and trailing dots and
spaces. -/
def stripDotsSpaces (l : List Char) : List Char :=
  ((l.dropWhile isStripChar).reverse.dropWhile isStripChar).reverse

/-- Character-list level body of `sanitize_for_filesystem`. -/
def sanitizeList (l : List Char) : List Char :=
  let replaced := l.map replChar
  let stripped := stripDotsSpaces replaced
  if stripped.isEmpty then "default".data else stripped

/-- Embedding of `cache.sanitize_for_filesystem`: replace reserved
characters by underscores, strip leading and trailing dots and spaces,
and fall back to the string default when the result is empty. -/
def sanitize_for_filesystem (s : String) : String :=
  String.mk (sanitizeList s.data)

/-! ## cache.py: repo-name extraction and cache keys -/

/-- Python `str.split(c)` for a one-character separator. -/
def splitOnChar (c : Char) : List Char → List (List Char)
  | [] => [[]]
  | x :: xs =>
    match splitOnChar c xs with
    | [] => [[x]]
    | h :: t => if x = c then [] :: h :: t else (x :: h) :: t

/-- Python `str.rstrip('/')`: remove trailing slashes. -/
def rstripSlashes (l : List Char) : List Char :=
  (l.reverse.dropWhile (fun c => c = '/')).reverse

/-- The repo-name computation of `get_dora_cache_path`: last path segment
of the slash-stripped URL, with a trailing .git removed. -/
def repoNameOfUrl (url : String) : String :=
  let stripped := rstripSlashes url.data
  let last := (splitOnChar '/' stripped).getLastD []
  let name :=
    if ".git".data.isSuffixOf last then last.take (last.length - 4) else last
  String.mk name

/-- Pre-release markers excluded by `get_latest_git_tag`. -/
def preMarkers : List String := ["alpha", "beta", "rc", "pre", "dev"]

/-- Lower-case a string character by character (Python `str.lower`). -/
def toLowerStr (s : String) : String := String.mk (s.data.map Char.toLower)

/-- Python substring membership `a in b` on character lists. -/
def listInfixB (needle hay : List Char) : Bool := decide (needle <:+: hay)

/-- Whether a tag contains one of the pre-release markers, matching the
Python membership test on `tag.lower()`. -/
def isPreTag (tag : String) : Bool :=
  preMarkers.any (fun m => listInfixB m.data (toLowerStr tag).data)

/-- Recursion core for `afterSplitLast`.  The fuel argument only makes
the recursion structural (every recursive call strictly shrinks the
haystack, so any fuel of at least the haystack length is enough); the
logic mirrors scanning the string left to right for non-overlapping
separator occurrences and keeping what follows the last one. -/
def afterSplitLastFuel (needle : List Char) : Nat → List Char → List Char
  | 0, hay => hay
  | fuel + 1, hay =>
    match hay with
    | [] => []
    | x :: xs =>
      if needle ≠ [] ∧ needle.isPrefixOf (x :: xs) then
        afterSplitLastFuel needle fuel ((x :: xs).drop needle.length)
      else if listInfixB needle xs then
        afterSplitLastFuel needle fuel xs
      else
        x :: xs

/-- Python `line.split(sep)[-1]`: the suffix of the string after the last
(non-overlapping, left-to-right) occurrence of the separator. -/
def afterSplitLast (needle : List Char) (hay : List Char) : List Char :=
  afterSplitLastFuel needle hay.length hay

/-- The separator string used to extract a tag name from a
git ls-remote output line. -/
def refsTagsSep : List Char := "refs/tags/".data

/-- Tag extracted from one output line, as in the Python source. -/
def extractTag (line : String) : String :=
  String.mk (afterSplitLast refsTagsSep line.data)

/-- The loop body of `get_latest_git_tag`: walk the output lines in the
order git returned them (descending version order), skip lines without a
tag reference, and return the first tag that carries no pre-release
marker. -/
def scanTagLines : List String → Option String
  | [] => none
  | line :: rest =>
    if line ≠ "" ∧ listInfixB refsTagsSep line.data then
      let tag := extractTag line
      if isPreTag tag then scanTagLines rest else some tag
    else scanTagLines rest

/-- Embedding of `cache.get_latest_git_tag`.  The subprocess call is
abstracted into `remote`: `none` models a raised exception (network
error, timeout) or a non-zero git exit status, `some lines` models a
successful run whose stdout consists of the given lines. -/
def get_latest_git_tag (remote : Option (List String)) : Option String :=
  match remote with
  | none => none
  | some lines => scanTagLines lines

/-- Embedding of `cache.get_dora_cache_path`, returning the final path
component of the cache directory (the part under the fixed cache root).
Following Python truthiness, an absent or empty url falls back to the
default repo name dora, and an absent or empty revision triggers the
remote tag lookup. -/
def get_dora_cache_path (url : Option String) (rev : Option String)
    (remote : Option (List String)) : String :=
  let repo_name :=
    match url with
    | some u => if u = "" then "dora" else repoNameOfUrl u
    | none => "dora"
  let revTruthy : Bool :=
    match rev with
    | some r => !(r = "")
    | none => false
  if revTruthy then
    repo_name ++ "-" ++ sanitize_for_filesystem ((rev.getD ""))
  else
    match get_latest_git_tag remote with
    | some tag => repo_name ++ "-" ++ sanitize_for_filesystem tag
    | none => repo_name ++ "-main"

/-! ## config.py: dependency declarations and the parser -/

/-- The build systems of `config.BuildSystem`. -/
inductive BuildSystem where
  | native
  | cmake
  | make
  | ninja
deriving DecidableEq, Repr

/-- The Python enum constructor `BuildSystem(s)`: a value error for any
string outside the enum. -/
def buildSystemOfString (s : String) : Except String BuildSystem :=
  if s = "native" then .ok .native
  else if s = "cmake" then .ok .cmake
  else if s = "make" then .ok .make
  else if s = "ninja" then .ok .ninja
  else .error s

/-- The dataclass `config.GitDependency`. -/
structure GitDependency where
  url : String
  rev : Option String := none
  branch : Option String := none
  tag : Option String := none
  subdir : Option String := none
  build_system : Option BuildSystem := none
  cmake_options : List (String × String) := []
  include_dirs : List String := []
  lib_dirs : List String := []
  libraries : List String := []
deriving DecidableEq, Repr

/-- The dataclass `config.VcpkgDependency`. -/
structure VcpkgDependency where
  name : String
  version : Option String := none
  features : List String := []
  triplet : Option String := none
deriving DecidableEq, Repr

/-- The dataclass `config.SystemDependency`. -/
structure SystemDependency where
  name : String
  pkg_config : Option String := none
  include_dirs : List String := []
  lib_dirs : List String := []
  libraries : List String := []
deriving DecidableEq, Repr

/-- The dataclass `config.LocalDependency`. -/
structure LocalDependency where
  path : String
  build_system : Option BuildSystem := none
  cmake_options : List (String × String) := []
  include_dirs : List String := []
  lib_dirs : List String := []
  libraries : List String := []
deriving DecidableEq, Repr

/-- The union type returned by `config.parse_dependency`. -/
inductive Dependency where
  | git (g : GitDependency)
  | vcpkg (v : VcpkgDependency)
  | system (s : SystemDependency)
  | localDep (l : LocalDependency)
deriving DecidableEq, Repr

/-- The Python exceptions `parse_dependency` can raise: a KeyError from a
mandatory `dep_config[key]` lookup, or a ValueError (unknown dependency
type, invalid build-system enum value). -/
inductive DepError where
  | keyError (key : String)
  | valueError (msg : String)
deriving DecidableEq, Repr

/-- A dependency table as `parse_dependency` reads it: the TOML keys the
function accesses, each possibly absent.  Values carry the types the
dataclass annotations in config.py declare for them. -/
structure RawDepTable where
  type : Option String := none
  url : Option String := none
  rev : Option String := none
  branch : Option String := none
  tag : Option String := none
  subdir : Option String := none
  build_system : Option String := none
  name : Option String := none
  path : Option String := none
  version : Option String := none
  triplet : Option String := none
  pkg_config : Option String := none
  features : Option (List String) := none
  include_dirs : Option (List String) := none
  lib_dirs : Option (List String) := none
  libraries : Option (List String) := none
  cmake_options : Option (List (String × String)) := none
deriving DecidableEq, Repr

/-- The build-system sub-expression of the git and local branches:
`BuildSystem(cfg.get("build_system", "cmake")) if cfg.get("build_system")
else None` — an absent or empty value yields None, any other value goes
through the enum constructor. -/
def parseOptBuildSystem (o : Option String) : Except DepError (Option BuildSystem) :=
  match o with
  | none => .ok none
  | some s =>
    if s = "" then .ok none
    else
      match buildSystemOfString s with
      | .ok bs => .ok (some bs)
      | .error v => .error (.valueError ("Unsupported build system: " ++ v))

/-- Embedding of `config.parse_dependency`: dispatch on the `type` key,
defaulting to git when the key is absent; each branch demands its
mandatory field (`url`, `name`, or `path`) and fills the rest from
optional lookups with the dataclass defaults. -/
def parse_dependency (cfg : RawDepTable) : Except DepError Dependency :=
  let dep_type := cfg.type.getD "git"
  if dep_type = "git" then
    match cfg.url with
    | none => .error (.keyError "url")
    | some u =>
      match parseOptBuildSystem cfg.build_system with
      | .error e => .error e
      | .ok bs =>
        .ok (.git
          { url := u, rev := cfg.rev, branch := cfg.branch, tag := cfg.tag
            subdir := cfg.subdir, build_system := bs
            cmake_options := cfg.cmake_options.getD []
            include_dirs := cfg.include_dirs.getD []
            lib_dirs := cfg.lib_dirs.getD []
            libraries := cfg.libraries.getD [] })
  else if dep_type = "vcpkg" then
    match cfg.name with
    | none => .error (.keyError "name")
    | some n =>
      .ok (.vcpkg
        { name := n, version := cfg.version
          features := cfg.features.getD [], triplet := cfg.triplet })
  else if dep_type = "system" then
    match cfg.name with
    | none => .error (.keyError "name")
    | some n =>
      .ok (.system
        { name := n, pkg_config := cfg.pkg_config
          include_dirs := cfg.include_dirs.getD []
          lib_dirs := cfg.lib_dirs.getD []
          libraries := cfg.libraries.getD [] })
  else if dep_type = "local" then
    match cfg.path with
    | none => .error (.keyError "path")
    | some p =>
      match parseOptBuildSystem cfg.build_system with
      | .error e => .error e
      | .ok bs =>
        .ok (.localDep
          { path := p, build_system := bs
            cmake_options := cfg.cmake_options.getD []
            include_dirs := cfg.include_dirs.getD []
            lib_dirs := cfg.lib_dirs.getD []
            libraries := cfg.libraries.getD [] })
  else
    .error (.valueError ("Unknown dependency type: " ++ dep_type))

/-! ## dependencies.py: the system-library probe -/

/-- Abstraction of the ambient machine consulted by
`DependencyManager._resolve_system_dependency` and
`_find_system_library`: whether this is a Windows host, whether a
directory exists, whether a glob pattern matches at least one entry of a
directory, and whether `pkg-config --exists` succeeds for a package id
(false also covers pkg-config itself being absent, the Python
FileNotFoundError branch). -/
structure ProbeEnv where
  isWindows : Bool
  dirExists : String → Bool
  globSome : String → String → Bool
  pkgConfigExists : String → Bool

/-- The fixed library search directories of `_find_system_library`,
extended on Windows exactly as in the source. -/
def searchPaths (env : ProbeEnv) : List String :=
  ["/usr/lib", "/usr/local/lib", "/lib", "/usr/lib/x86_64-linux-gnu", "/usr/lib64"]
    ++ (if env.isWindows then
          ["C:/Windows/System32",
           "C:/Program Files/Microsoft Visual Studio/*/VC/lib"]
        else [])

/-- The filename patterns probed for a library name. -/
def libPatterns (lib_name : String) : List String :=
  ["lib" ++ lib_name ++ ".so", "lib" ++ lib_name ++ ".a",
   lib_name ++ ".lib", lib_name ++ ".dll"]

/-- Embedding of `DependencyManager._find_system_library`: scan every
search directory that exists for any of the name patterns. -/
def find_system_library (env : ProbeEnv) (lib_name : String) : Bool :=
  (searchPaths env).any (fun sp =>
    env.dirExists sp && (libPatterns lib_name).any (fun pat => env.globSome sp pat))

/-- The fatal error raised by `_resolve_system_dependency`, carrying the
dependency name and the set of libraries not found. -/
inductive ResolveError where
  | missingLibraries (name : String) (missing : List String)
deriving DecidableEq, Repr

/-- Whether the pkg-config branch of `_resolve_system_dependency` returns
early: the declared id must be present and truthy, and the existence
check must succeed. -/
def pkgConfigHit (env : ProbeEnv) (dep : SystemDependency) : Bool :=
  match dep.pkg_config with
  | some pc => !(pc = "") && env.pkgConfigExists pc
  | none => false

/-- Embedding of `DependencyManager._resolve_system_dependency`: try the
pkg-config existence check when an id is declared; otherwise (or on its
failure) probe the search directories for every declared library, and
succeed with the placeholder pair only when every declared library was
found. -/
def resolve_system_dependency (env : ProbeEnv) (name : String)
    (dep : SystemDependency) : Except ResolveError (String × String) :=
  if pkgConfigHit env dep then
    .ok ("/usr", "/usr")
  else
    let found_libs := dep.libraries.filter (fun l => find_system_library env l)
    if found_libs.length = dep.libraries.length then
      .ok ("/usr", "/usr")
    else
      .error (.missingLibraries name
        (dep.libraries.filter (fun l => !(find_system_library env l))))

/-! ## build_cxx_node.py: artifact discovery (find_cxxbridge_artifacts) -/

/-- A path below the Dora target directory, as a list of components. -/
abbrev RelPath := List String

/-- Abstraction of the build-output tree scanned by
`find_cxxbridge_artifacts`: path existence, directory test, the ordered
entries returned by `iterdir`, and the ordered results of the
`glob("*.cc")` call. -/
structure ScannedTree where
  pathExists : RelPath → Bool
  isDir : RelPath → Bool
  children : RelPath → List String
  ccGlob : RelPath → List String

/-- The set-guarded comprehension dedup of the Python source:
`seen = set(); [p for p in l if not (p in seen or seen.add(p))]`. -/
def pyDedupGo (seen : List RelPath) : List RelPath → List RelPath
  | [] => []
  | x :: xs => if x ∈ seen then pyDedupGo seen xs else x :: pyDedupGo (x :: seen) xs

/-- First-occurrence deduplication as the source performs it. -/
def pyDedup (l : List RelPath) : List RelPath := pyDedupGo [] l

/-- The body of the per-crate loop of the main scan: each crate directory
contributes its root and src include dirs and any generated glue
sources. -/
def scanCrateDir (fs : ScannedTree) (root : RelPath) (entry : String)
    (acc : List RelPath × List RelPath) : List RelPath × List RelPath :=
  let crate := root ++ [entry]
  if fs.isDir crate then
    let inc1 := acc.1 ++ [crate]
    let src := crate ++ ["src"]
    let state :=
      if fs.pathExists src then
        (inc1 ++ [src],
         acc.2 ++ (if fs.pathExists (src ++ ["lib.rs.cc"]) then [src ++ ["lib.rs.cc"]] else []))
      else
        (inc1, acc.2)
    (state.1, state.2 ++ (fs.ccGlob crate).map (fun f => crate ++ [f]))
  else acc

/-- The main scan over the two candidate cxxbridge roots. -/
def scanRoots (fs : ScannedTree) (profile : String) : List RelPath × List RelPath :=
  [[profile, "cxxbridge"], ["cxxbridge"]].foldl
    (fun acc root =>
      if fs.pathExists root then
        (fs.children root).foldl (fun a e => scanCrateDir fs root e a)
          (acc.1 ++ [root], acc.2)
      else acc)
    ([], [])

/-- The fallback scan under `build/*/out/cxxbridge/crate/<crate>/src`. -/
def scanFallback (fs : ScannedTree) (profile : String)
    (acc : List RelPath × List RelPath) : List RelPath × List RelPath :=
  let buildRoot := [profile, "build"]
  if fs.pathExists buildRoot then
    (fs.children buildRoot).foldl
      (fun a be =>
        let out := buildRoot ++ [be, "out", "cxxbridge", "crate"]
        if fs.pathExists out then
          (fs.children out).foldl
            (fun a2 ce =>
              let src := out ++ [ce, "src"]
              if fs.pathExists src then
                (a2.1 ++ [src],
                 a2.2 ++ (if fs.pathExists (src ++ ["lib.rs.cc"]) then [src ++ ["lib.rs.cc"]] else []))
              else a2)
            a
        else a)
      acc
  else acc

/-- The raw (pre-deduplication) include-dir and generated-source lists
accumulated by `find_cxxbridge_artifacts`, in discovery order. -/
def find_cxxbridge_artifacts_raw (fs : ScannedTree) (profile : String) :
    List RelPath × List RelPath :=
  scanFallback fs profile (scanRoots fs profile)

/-- Embedding of `build_cxx_node.find_cxxbridge_artifacts`: the raw scan
followed by the order-preserving dedup of both lists. -/
def find_cxxbridge_artifacts (fs : ScannedTree) (profile : String) :
    List RelPath × List RelPath :=
  let raw := find_cxxbridge_artifacts_raw fs profile
  (pyDedup raw.1, pyDedup raw.2)

/-- Declarative first-occurrence-wins specification: keep each element at
the position of its first appearance and drop all later copies. -/
def keepFirsts : List RelPath → List RelPath
  | [] => []
  | x :: xs => x :: keepFirsts (xs.filter (fun y => !(y == x)))
termination_by l => l.length
decreasing_by
  have := List.length_filter_le (fun y => !(y == x)) xs
  simp only [List.length_cons]
  omega

/-! ## build_cxx_node.py: prebuilt-library filtering of glue sources -/

/-- Python `str.replace('-', '_')`. -/
def dashToUnderscore (s : String) : String :=
  String.mk (s.data.map (fun c => if c = '-' then '_' else c))

/-- Index of the last occurrence of a character, or none. -/
def lastIdxOf (c : Char) (l : List Char) : Option Nat :=
  match l.reverse.indexOf? c with
  | none => none
  | some j => some (l.length - 1 - j)

/-- `pathlib.PurePath.suffix` on a bare file name: the part of the name
from its last dot, provided the dot is neither the first nor the last
character. -/
def fileSuffix (name : String) : String :=
  match lastIdxOf '.' name.data with
  | none => ""
  | some i =>
    if 0 < i ∧ i < name.data.length - 1 then String.mk (name.data.drop i) else ""

/-- `pathlib.PurePath.stem` on a bare file name. -/
def fileStem (name : String) : String :=
  match lastIdxOf '.' name.data with
  | none => name
  | some i =>
    if 0 < i ∧ i < name.data.length - 1 then String.mk (name.data.take i) else name

/-- The `available_libs` set of `compile_node`: on the MSVC path the stem
of every .lib file, otherwise every .a file named with a lib prefix,
recorded without that prefix. -/
def availableLibs (kind : String) (libFiles : List String) : List String :=
  libFiles.foldl
    (fun acc f =>
      if kind = "msvc" then
        if toLowerStr (fileSuffix f) = ".lib" then acc ++ [fileStem f] else acc
      else
        if toLowerStr (fileSuffix f) = ".a" ∧ "lib".data.isPrefixOf f.data then
          acc ++ [String.mk ((fileStem f).data.drop 3)]
        else acc)
    []

/-- The crate name of a generated glue source: the name of the
grandparent directory of the file, or none when that name is empty
(Python falsiness of `ppath.parent.parent.name`). -/
def crateOf (p : RelPath) : Option String :=
  match p.reverse with
  | _ :: _ :: c :: _ => if c = "" then none else some c
  | _ => none

/-- The `should_compile` decision of `compile_node`: a glue source is
kept unless one of the candidates (the raw crate name, or the crate name
with dashes replaced by underscores) names an available prebuilt
library. -/
def shouldCompileGlue (available : List String) (p : RelPath) : Bool :=
  match crateOf p with
  | none => true
  | some crate => !(available.contains crate || available.contains (dashToUnderscore crate))

/-- The glue-source filtering loop of `compile_node`: compute the
available prebuilt libraries from the profile library directory listing
and keep only the generated sources whose crate has no prebuilt
library. -/
def filterGlueSources (kind : String) (libFiles : List String)
    (generated_cc : List RelPath) : List RelPath :=
  generated_cc.filter (shouldCompileGlue (availableLibs kind libFiles))

/-! ## build_cxx_node.py: process execution with timeout (run) -/

/-- Outcome of one `run` call: normal return, a CalledProcessError for a
non-zero exit status, or a TimeoutExpired raised after killing the
process. -/
inductive RunOutcome where
  | success
  | calledProcessError (code : Int)
  | timeoutExpired
deriving DecidableEq, Repr

/-- Abstract behaviour of a spawned process, with time in seconds:
when its stdout reaches end-of-file for a reader, when the process
itself exits, and its exit status.  A process that keeps stdout open
until it terminates has `stdoutCloseTime = exitTime`. -/
structure ProcBehavior where
  stdoutCloseTime : Nat
  exitTime : Nat
  returncode : Int
deriving DecidableEq, Repr

/-- Embedding of the streaming branch of `build_cxx_node.run`
(`capture_output=False`): the line loop reads stdout until end-of-file
and only then is `process.wait(timeout=timeout)` called, so the timeout
clock starts after the read loop has already blocked for the whole
stdout lifetime.  Returns the elapsed time of the call together with its
outcome. -/
def runStreaming (p : ProcBehavior) (timeout : Nat) : Nat × RunOutcome :=
  let readDone := p.stdoutCloseTime
  if p.exitTime ≤ readDone + timeout then
    (max readDone p.exitTime,
     if p.returncode = 0 then .success else .calledProcessError p.returncode)
  else
    (readDone + timeout, .timeoutExpired)

/-- Embedding of the capturing branch of `run` (`capture_output=True`),
which delegates to `subprocess.run(..., timeout=timeout)`: there the
timeout bounds the whole process lifetime. -/
def runCapture (p : ProcBehavior) (timeout : Nat) : Nat × RunOutcome :=
  if p.exitTime ≤ timeout then
    (p.exitTime,
     if p.returncode = 0 then .success else .calledProcessError p.returncode)
  else
    (timeout, .timeoutExpired)

/-! ## build_cxx_node.py: overall exit-code logic of main -/

/-- The artifact check at the end of `compile_node`: succeed with the
output path when the executable exists, raise otherwise. -/
def compileNodeArtifactCheck (finalExists : Bool) (path : String) :
    Except String String :=
  if finalExists then .ok path else .error ("executable not created: " ++ path)

/-- Embedding of the final try/except of `build_cxx_node.main`: a
successful `compile_node` exits zero; on any exception the expected
executable path is probed and its existence alone decides between exit
codes zero and one. -/
def mainBuildExit (compileResult : Except String String) (targetExists : Bool) : Nat :=
  match compileResult with
  | .ok _ => 0
  | .error _ => if targetExists then 0 else 1

/-- Whether an Except value is a success. -/
def exceptOk (r : Except String String) : Bool :=
  match r with
  | .ok _ => true
  | .error _ => false

/-! ## Lemmas about sanitize_for_filesystem -/

theorem isReserved_replChar (c : Char) : isReserved (replChar c) = false := by
  unfold replChar
  cases h : isReserved c with
  | false => simp [h]
  | true => simp [h]; decide

theorem all_not_reserved_map_replChar (l : List Char) :
    (l.map replChar).all (fun c => !(isReserved c)) = true := by
  induction l with
  | nil => rfl
  | cons x xs ih => simp_all [isReserved_replChar]

theorem stripDotsSpaces_sublist (l : List Char) :
    List.Sublist (stripDotsSpaces l) l := by
  unfold stripDotsSpaces
  have h1 : List.Sublist (l.dropWhile isStripChar) l := List.dropWhile_sublist _
  have h2 : List.Sublist ((l.dropWhile isStripChar).reverse.dropWhile isStripChar)
      (l.dropWhile isStripChar).reverse := List.dropWhile_sublist _
  have h3 := h2.reverse
  rw [List.reverse_reverse] at h3
  exact h3.trans h1

theorem head_dropWhile_false {p : Char → Bool} :
    ∀ {l : List Char} {c : Char}, (l.dropWhile p).head? = some c → p c = false := by
  intro l
  induction l with
  | nil => intro c h; simp at h
  | cons x xs ih =>
    intro c h
    rw [List.dropWhile_cons] at h
    by_cases hx : p x
    · simp [hx] at h
      exact ih h
    · simp [hx] at h
      rw [← h]
      simpa using hx

theorem dropWhile_eq_self_of_head {p : Char → Bool} {l : List Char}
    (h : ∀ c, l.head? = some c → p c = false) : l.dropWhile p = l := by
  cases l with
  | nil => rfl
  | cons x xs =>
    have hx := h x rfl
    rw [List.dropWhile_cons, hx]
    simp

theorem stripDotsSpaces_head {l : List Char} {c : Char}
    (h : (stripDotsSpaces l).head? = some c) : isStripChar c = false := by
  unfold stripDotsSpaces at h
  obtain ⟨t, ht⟩ :=
    List.dropWhile_suffix (l := (l.dropWhile isStripChar).reverse) (p := isStripChar)
  have hD : ((l.dropWhile isStripChar).reverse.dropWhile isStripChar).reverse ++ t.reverse
      = l.dropWhile isStripChar := by
    have h2 := congrArg List.reverse ht
    rw [List.reverse_append, List.reverse_reverse] at h2
    exact h2
  have hDhead : (l.dropWhile isStripChar).head? = some c := by
    rw [← hD]
    cases hres : ((l.dropWhile isStripChar).reverse.dropWhile isStripChar).reverse with
    | nil => rw [hres] at h; simp at h
    | cons y ys =>
      rw [hres] at h
      have hyc : y = c := by simpa using h
      simp [hyc]
  exact head_dropWhile_false hDhead

theorem stripDotsSpaces_getLast {l : List Char} {c : Char}
    (h : (stripDotsSpaces l).getLast? = some c) : isStripChar c = false := by
  unfold stripDotsSpaces at h
  rw [List.getLast?_reverse] at h
  exact head_dropWhile_false h

theorem stripDotsSpaces_eq_self {l : List Char}
    (hh : ∀ c, l.head? = some c → isStripChar c = false)
    (hl : ∀ c, l.getLast? = some c → isStripChar c = false) :
    stripDotsSpaces l = l := by
  unfold stripDotsSpaces
  rw [dropWhile_eq_self_of_head hh]
  have : l.reverse.dropWhile isStripChar = l.reverse := by
    apply dropWhile_eq_self_of_head
    intro c hc
    rw [List.head?_reverse] at hc
    exact hl c hc
  rw [this, List.reverse_reverse]

theorem map_replChar_eq_self {l : List Char}
    (h : ∀ c ∈ l, isReserved c = false) : l.map replChar = l := by
  induction l with
  | nil => rfl
  | cons x xs ih =>
    have hx := h x (List.mem_cons_self x xs)
    simp only [List.map_cons]
    rw [ih (fun c hc => h c (List.mem_cons_of_mem _ hc))]
    unfold replChar
    rw [hx]
    simp

theorem sanitizeList_eq (l : List Char) :
    sanitizeList l =
      if (stripDotsSpaces (l.map replChar)).isEmpty then "default".data
      else stripDotsSpaces (l.map replChar) := rfl

theorem sanitizeList_cases (l : List Char) :
    sanitizeList l = "default".data ∨
      (sanitizeList l = stripDotsSpaces (l.map replChar) ∧ sanitizeList l ≠ []) := by
  rw [sanitizeList_eq]
  cases he : (stripDotsSpaces (l.map replChar)).isEmpty with
  | true => left; simp
  | false =>
    right
    constructor
    · simp
    · simp only [Bool.false_eq_true, if_false]
      intro hcon
      rw [hcon] at he
      simp at he

theorem sanitizeList_all_not_reserved (l : List Char) :
    ∀ c ∈ sanitizeList l, isReserved c = false := by
  intro c hc
  rcases sanitizeList_cases l with h | ⟨h, _⟩
  · rw [h] at hc
    fin_cases hc <;> decide
  · rw [h] at hc
    have hmem : c ∈ l.map replChar := (stripDotsSpaces_sublist _).subset hc
    have hall := all_not_reserved_map_replChar l
    rw [List.all_eq_true] at hall
    have := hall c hmem
    simpa using this

theorem sanitizeList_head {l : List Char} {c : Char}
    (h : (sanitizeList l).head? = some c) : isStripChar c = false := by
  rcases sanitizeList_cases l with hcase | ⟨hcase, _⟩
  · rw [hcase] at h
    have : c = 'd' := by simpa using h.symm
    rw [this]
    decide
  · rw [hcase] at h
    exact stripDotsSpaces_head h

theorem sanitizeList_getLast {l : List Char} {c : Char}
    (h : (sanitizeList l).getLast? = some c) : isStripChar c = false := by
  rcases sanitizeList_cases l with hcase | ⟨hcase, _⟩
  · rw [hcase] at h
    have : c = 't' := by simpa using h.symm
    rw [this]
    decide
  · rw [hcase] at h
    exact stripDotsSpaces_getLast h

theorem sanitizeList_ne_nil (l : List Char) : sanitizeList l ≠ [] := by
  rcases sanitizeList_cases l with h | ⟨_, h⟩
  · rw [h]
    decide
  · exact h

theorem sanitizeList_isEmpty_false (l : List Char) :
    (sanitizeList l).isEmpty = false := by
  cases hx : sanitizeList l with
  | nil => exact absurd hx (sanitizeList_ne_nil l)
  | cons a as => simp

theorem sanitizeList_idem (l : List Char) :
    sanitizeList (sanitizeList l) = sanitizeList l := by
  have hres := sanitizeList_all_not_reserved l
  have hmap : (sanitizeList l).map replChar = sanitizeList l :=
    map_replChar_eq_self hres
  have hstrip : stripDotsSpaces (sanitizeList l) = sanitizeList l := by
    apply stripDotsSpaces_eq_self
    · intro c hc; exact sanitizeList_head hc
    · intro c hc; exact sanitizeList_getLast hc
  rw [sanitizeList_eq (sanitizeList l), hmap, hstrip,
    sanitizeList_isEmpty_false]
  simp

/-! ## Claim C7: properties of sanitize_for_filesystem -/

/-- C7: sanitize_for_filesystem is idempotent, its output never contains
a reserved character, never has a leading or trailing dot or space, and
is never empty; an input that sanitizes to nothing yields the string
default. -/
theorem claim_C7_sanitize (s : String) :
    sanitize_for_filesystem (sanitize_for_filesystem s) = sanitize_for_filesystem s
    ∧ ((sanitize_for_filesystem s).data.all (fun c => !(isReserved c))) = true
    ∧ ((sanitize_for_filesystem s).data.head?.all (fun c => !(isStripChar c))) = true
    ∧ ((sanitize_for_filesystem s).data.getLast?.all (fun c => !(isStripChar c))) = true
    ∧ sanitize_for_filesystem s ≠ ""
    ∧ sanitize_for_filesystem " .. " = "default" := by
  refine ⟨?_, ?_, ?_, ?_, ?_, ?_⟩
  · show String.mk (sanitizeList (sanitizeList s.data)) = String.mk (sanitizeList s.data)
    exact congrArg String.mk (sanitizeList_idem s.data)
  · rw [List.all_eq_true]
    intro c hc
    have := sanitizeList_all_not_reserved s.data c hc
    simp [this]
  · show ((sanitizeList s.data).head?.all fun c => !(isStripChar c)) = true
    cases hh : (sanitizeList s.data).head? with
    | none => rfl
    | some c =>
      have := sanitizeList_head hh
      simp [Option.all, this]
  · show ((sanitizeList s.data).getLast?.all fun c => !(isStripChar c)) = true
    cases hh : (sanitizeList s.data).getLast? with
    | none => rfl
    | some c =>
      have := sanitizeList_getLast hh
      simp [Option.all, this]
  · intro hcon
    exact sanitizeList_ne_nil s.data (congrArg String.data hcon)
  · decide

/-! ## Claim C4: cache key with an explicit revision -/

/-- C4 counterexample: for the url https://github.com/x/re:po and
revision v1, the resolver returns re:po-v1, which differs from the
spec's formula sanitize(repo_name) + "-" + sanitize(revision) =
re_po-v1 — the repo-name part is not sanitized. -/
theorem claim_C4_counterexample :
    get_dora_cache_path (some "https://github.com/x/re:po") (some "v1") none
      ≠ sanitize_for_filesystem (repoNameOfUrl "https://github.com/x/re:po") ++ "-"
        ++ sanitize_for_filesystem "v1" := by
  decide

/-- C4 amended: with an explicit non-empty revision the cache key's final
component is raw_repo_name + "-" + sanitize(revision): only the revision
part is sanitized, and the spec's formula holds exactly when the repo
name is already a fixed point of the sanitizer. -/
theorem claim_C4_amended (url rev : String) (remote : Option (List String))
    (hu : url ≠ "") (hr : rev ≠ "") :
    get_dora_cache_path (some url) (some rev) remote
      = repoNameOfUrl url ++ "-" ++ sanitize_for_filesystem rev
    ∧ (sanitize_for_filesystem (repoNameOfUrl url) = repoNameOfUrl url →
        get_dora_cache_path (some url) (some rev) remote
          = sanitize_for_filesystem (repoNameOfUrl url) ++ "-"
            ++ sanitize_for_filesystem rev) := by
  have hmain : get_dora_cache_path (some url) (some rev) remote
      = repoNameOfUrl url ++ "-" ++ sanitize_for_filesystem rev := by
    unfold get_dora_cache_path
    simp [hu, hr]
  exact ⟨hmain, fun hs => by rw [hmain, hs]⟩

/-- C4 witness: the amended statement evaluated at a concrete url and
revision. -/
theorem claim_C4_amended_witness :
    get_dora_cache_path (some "https://github.com/dora-rs/dora") (some "v0.3.5") none
      = repoNameOfUrl "https://github.com/dora-rs/dora" ++ "-"
        ++ sanitize_for_filesystem "v0.3.5" :=
  (claim_C4_amended "https://github.com/dora-rs/dora" "v0.3.5" none
    (by decide) (by decide)).1

/-! ## Claim C6: latest-tag resolution and the -main fallback -/

/-- The tag scanner returns the first tag of the output, in the order git
produced it, that carries no pre-release marker: it is the find-first
over the tags extracted from the lines that mention a tag reference. -/
theorem scanTagLines_eq_find (lines : List String) :
    scanTagLines lines
      = ((lines.filter (fun l => !(l = "") && listInfixB refsTagsSep l.data)).map
          extractTag).find? (fun t => !(isPreTag t)) := by
  induction lines with
  | nil => rfl
  | cons line rest ih =>
    by_cases h1 : line = ""
    · simp only [scanTagLines, List.filter_cons, h1]
      simp [ih, h1]
    · by_cases h2 : listInfixB refsTagsSep line.data
      · have hc : line ≠ "" ∧ listInfixB refsTagsSep line.data := ⟨h1, h2⟩
        simp only [scanTagLines, List.filter_cons]
        rw [if_pos hc]
        have hbool : (!(line = "") && listInfixB refsTagsSep line.data) = true := by
          simp [h1, h2]
        rw [hbool]
        simp only [if_true, List.map_cons, List.find?_cons]
        cases hp : isPreTag (extractTag line) with
        | true => simp [hp, ih]
        | false => simp [hp]
      · have hc : ¬(line ≠ "" ∧ listInfixB refsTagsSep line.data) := by
          intro hcon
          exact h2 hcon.2
        simp only [scanTagLines, List.filter_cons]
        rw [if_neg hc]
        have hbool : (!(line = "") && listInfixB refsTagsSep line.data) = false := by
          simp only [Bool.and_eq_false_iff]
          right
          simpa using h2
        rw [hbool]
        simp [ih]

/-- C6: when no revision is pinned, the resolver walks the remote's tags
in the order git reports them (descending version order), skips every
tag containing a pre-release marker, and keys the cache with the first
(highest) remaining tag; for tags v1.2.0, v1.1.0-rc1, v1.0.0 the key is
dora-v1.2.0; when the tag lookup errors out, or no line yields an
acceptable tag, the key silently falls back to the -main suffix. -/
theorem claim_C6_latest_tag :
    (∀ lines : List String,
        get_latest_git_tag (some lines)
          = ((lines.filter (fun l => !(l = "") && listInfixB refsTagsSep l.data)).map
              extractTag).find? (fun t => !(isPreTag t)))
    ∧ get_dora_cache_path (some "https://github.com/dora-rs/dora") none
        (some ["c0ffee\trefs/tags/v1.2.0", "c0ffee\trefs/tags/v1.1.0-rc1",
               "c0ffee\trefs/tags/v1.0.0"])
        = "dora-v1.2.0"
    ∧ (∀ u : String, get_dora_cache_path (some u) none none
        = (if u = "" then "dora" else repoNameOfUrl u) ++ "-main")
    ∧ (∀ (u : String) (lines : List String), scanTagLines lines = none →
        get_dora_cache_path (some u) none (some lines)
          = (if u = "" then "dora" else repoNameOfUrl u) ++ "-main") := by
  refine ⟨fun lines => scanTagLines_eq_find lines, by decide, ?_, ?_⟩
  · intro u
    unfold get_dora_cache_path
    simp [get_latest_git_tag]
  · intro u lines hnone
    unfold get_dora_cache_path
    simp [get_latest_git_tag, hnone]

/-- C6 witness: a remote whose only tag is a pre-release resolves to the
-main fallback. -/
theorem claim_C6_witness :
    get_dora_cache_path (some "https://github.com/dora-rs/dora") none
      (some ["c0ffee\trefs/tags/v1.0.0-rc1"]) = "dora-main" :=
  (claim_C6_latest_tag.2.2.2 "https://github.com/dora-rs/dora"
    ["c0ffee\trefs/tags/v1.0.0-rc1"] (by decide)).trans (by decide)

/-! ## Claims C1 and C10: the system-dependency probe -/

theorem filter_length_eq_iff {p : String → Bool} :
    ∀ {l : List String}, ((l.filter p).length = l.length ↔ ∀ x ∈ l, p x = true) := by
  intro l
  induction l with
  | nil => simp
  | cons x xs ih =>
    rw [List.filter_cons]
    cases hx : p x with
    | true =>
      simp only [if_true]
      constructor
      · intro h c hc
        rcases List.mem_cons.mp hc with rfl | hm
        · exact hx
        · exact (ih.mp (by simpa using h)) c hm
      · intro h
        simp only [List.length_cons]
        rw [ih.mpr (fun c hc => h c (List.mem_cons_of_mem _ hc))]
    | false =>
      simp only [Bool.false_eq_true, if_false]
      constructor
      · intro h
        have hle := List.length_filter_le p xs
        simp only [List.length_cons] at h
        omega
      · intro h
        have := h x (List.mem_cons_self x xs)
        rw [hx] at this
        exact absurd this (by simp)

/-- C1 counterexample: a system dependency declaring the libraries a and
b, in an environment where only liba.so is present under /usr/lib, has
at least one declared library found, yet resolution raises the fatal
missing-libraries error. -/
theorem claim_C1_counterexample :
    find_system_library
        ⟨false, fun d => d = "/usr/lib",
         fun d p => d = "/usr/lib" && p = "liba.so", fun _ => false⟩ "a" = true
    ∧ resolve_system_dependency
        ⟨false, fun d => d = "/usr/lib",
         fun d p => d = "/usr/lib" && p = "liba.so", fun _ => false⟩
        "zlib" { name := "zlib", libraries := ["a", "b"] }
      = .error (.missingLibraries "zlib" ["b"]) := by
  exact ⟨by decide, by rfl⟩

/-- C1 amended: when the pkg-config check is unavailable or reports the
package absent, the resolver falls back to probing the fixed search
directories, and resolution succeeds if and only if the pkg-config check
hit or every (not merely some) declared library is found; otherwise it
raises the fatal missing-libraries error listing the libraries not
found. -/
theorem claim_C1_amended (env : ProbeEnv) (name : String) (dep : SystemDependency) :
    (resolve_system_dependency env name dep = .ok ("/usr", "/usr")
      ↔ (pkgConfigHit env dep = true
          ∨ dep.libraries.all (fun l => find_system_library env l) = true))
    ∧ (resolve_system_dependency env name dep = .ok ("/usr", "/usr")
        ∨ resolve_system_dependency env name dep
          = .error (.missingLibraries name
              (dep.libraries.filter (fun l => !(find_system_library env l))))) := by
  unfold resolve_system_dependency
  cases hpk : pkgConfigHit env dep with
  | true => simp
  | false =>
    by_cases hlen : (dep.libraries.filter (fun l => find_system_library env l)).length
        = dep.libraries.length
    · have hall : dep.libraries.all (fun l => find_system_library env l) = true := by
        rw [List.all_eq_true]
        exact filter_length_eq_iff.mp hlen
      simp [hlen, hall]
    · have hall : dep.libraries.all (fun l => find_system_library env l) = false := by
        cases hax : dep.libraries.all (fun l => find_system_library env l) with
        | false => rfl
        | true => exact absurd (filter_length_eq_iff.mpr (List.all_eq_true.mp hax)) hlen
      simp [hlen, hall]

/-- C10: a system dependency with no pkg-config id and an empty library
list always resolves successfully to the placeholder pair (/usr, /usr),
in every probe environment; the fatal branch is unreachable. -/
theorem claim_C10_empty_system_dep (env : ProbeEnv) (name depName : String)
    (incs libds : List String) :
    resolve_system_dependency env name
      { name := depName, pkg_config := none, include_dirs := incs,
        lib_dirs := libds, libraries := [] } = .ok ("/usr", "/usr") := by
  unfold resolve_system_dependency pkgConfigHit
  simp

/-! ## Claim C9: untyped dependency declarations default to git -/

/-- C9: a dependency table without a type key is parsed as a git
dependency: when the url field is also missing the parse fails with a
KeyError on url, and any successful parse of such a table yields the
git variant, never the system, vcpkg or local one. -/
theorem claim_C9_untyped_is_git (cfg : RawDepTable) (hty : cfg.type = none) :
    (cfg.url = none → parse_dependency cfg = .error (.keyError "url"))
    ∧ (∀ d, parse_dependency cfg = .ok d → ∃ g, d = .git g) := by
  constructor
  · intro hurl
    unfold parse_dependency
    simp [hty, hurl]
  · intro d hd
    unfold parse_dependency at hd
    simp only [hty, Option.getD_none, if_pos] at hd
    cases hurl : cfg.url with
    | none =>
      rw [hurl] at hd
      simp at hd
    | some u =>
      rw [hurl] at hd
      cases hbs : parseOptBuildSystem cfg.build_system with
      | error e =>
        rw [hbs] at hd
        simp at hd
      | ok bs =>
        rw [hbs] at hd
        simp at hd
        exact ⟨_, hd.symm⟩

/-- C9 witness: the empty dependency table (no type, no url) fails with
a KeyError on url. -/
theorem claim_C9_witness :
    parse_dependency {} = .error (.keyError "url") :=
  (claim_C9_untyped_is_git {} rfl).1 rfl

/-! ## Claim C5: exit code decided by artifact existence -/

/-- C5: the final try/except of main exits zero exactly when the compile
step succeeded or the expected executable exists on disk, and exits
non-zero exactly when the compile step raised and no artifact exists;
in particular an existing artifact forces exit code zero even after a
compile error, and compile_node itself fails when the artifact is
missing. -/
theorem claim_C5_exit_code (r : Except String String) (t : Bool) :
    (mainBuildExit r t = 0 ↔ (exceptOk r = true ∨ t = true))
    ∧ (mainBuildExit r t ≠ 0 ↔ (exceptOk r = false ∧ t = false))
    ∧ mainBuildExit r true = 0
    ∧ (∀ path, compileNodeArtifactCheck false path
        = .error ("executable not created: " ++ path)) := by
  cases r <;> cases t <;> simp [mainBuildExit, exceptOk, compileNodeArtifactCheck]

/-! ## Claim C3: the streaming executor does not enforce its timeout -/

/-- C3: with a timeout of one second and a process that writes nothing
and exits on its own after ten seconds, the streaming branch of run
returns normally after the full ten seconds instead of killing the
process at the timeout and raising: reading stdout to end-of-file
happens before the timed wait, so the TimeoutExpired branch is
unreachable for every process that keeps stdout open until it exits. -/
theorem claim_C3_timeout_not_enforced :
    runStreaming ⟨10, 10, 0⟩ 1 = (10, RunOutcome.success)
    ∧ 1 < 10
    ∧ (∀ (p : ProcBehavior) (timeout : Nat), p.stdoutCloseTime = p.exitTime →
        (runStreaming p timeout).2 ≠ RunOutcome.timeoutExpired)
    ∧ runCapture ⟨10, 10, 0⟩ 1 = (1, RunOutcome.timeoutExpired) := by
  refine ⟨by decide, by decide, ?_, by decide⟩
  intro p timeout h
  unfold runStreaming
  have hle : p.exitTime ≤ p.stdoutCloseTime + timeout := by omega
  rw [if_pos hle]
  by_cases hrc : p.returncode = 0 <;> simp [hrc]

/-- C3 witness: the unreachability of the timeout branch applied to a
concrete process behaviour. -/
theorem claim_C3_witness :
    (runStreaming ⟨5, 5, 1⟩ 2).2 ≠ RunOutcome.timeoutExpired :=
  claim_C3_timeout_not_enforced.2.2.1 ⟨5, 5, 1⟩ 2 rfl

/-! ## Claim C2: prebuilt libraries exclude generated glue sources -/

/-- C2 counterexample: with a prebuilt library file libfoo-bar.a (library
name foo-bar) on the non-MSVC path, the glue source of the crate spelled
foo_bar is not excluded from the compile list, although foo-bar is the
crate name with dash and underscore interchanged: the matching does not
work in the underscore-to-dash direction. -/
theorem claim_C2_counterexample :
    availableLibs "gcc" ["libfoo-bar.a"] = ["foo-bar"]
    ∧ filterGlueSources "gcc" ["libfoo-bar.a"]
        [["debug", "cxxbridge", "foo_bar", "src", "lib.rs.cc"]]
      = [["debug", "cxxbridge", "foo_bar", "src", "lib.rs.cc"]] := by
  exact ⟨by rfl, by rfl⟩

/-- C2 amended: a glue source is excluded exactly when the raw crate name
or its dash-to-underscore normalization names a prebuilt library — the
reverse (underscore-to-dash) direction is not tried; in particular a
prebuilt library named foo_bar (the artifact name produced for crate
foo-bar) excludes the glue sources of both the foo-bar and the foo_bar
spellings. -/
theorem claim_C2_amended :
    (∀ (available : List String) (p : RelPath),
        shouldCompileGlue available p = false
          ↔ ∃ c, crateOf p = some c
              ∧ (c ∈ available ∨ dashToUnderscore c ∈ available))
    ∧ filterGlueSources "gcc" ["libfoo_bar.a"]
        [["debug", "cxxbridge", "foo-bar", "src", "lib.rs.cc"],
         ["debug", "cxxbridge", "foo_bar", "src", "lib.rs.cc"]]
      = [] := by
  constructor
  · intro available p
    unfold shouldCompileGlue
    cases hc : crateOf p with
    | none => simp
    | some crate =>
      simp only [hc]
      constructor
      · intro h
        refine ⟨crate, rfl, ?_⟩
        have hor : crate ∉ available → dashToUnderscore crate ∈ available := by
          simpa using h
        exact or_iff_not_imp_left.mpr hor
      · intro hx
        obtain ⟨c, hcc, hmem⟩ := hx
        have hceq : crate = c := by simpa using hcc
        subst hceq
        rcases hmem with h1 | h1 <;> simp [h1]
  · rfl

/-! ## Claim C8: artifact discovery deduplication -/

theorem pyDedupGo_eq_keepFirsts :
    ∀ (l : List RelPath) (seen : List RelPath),
      pyDedupGo seen l = keepFirsts (l.filter (fun x => !(seen.contains x))) := by
  intro l
  induction l with
  | nil =>
    intro seen
    rw [List.filter_nil, keepFirsts]
    rfl
  | cons x xs ih =>
    intro seen
    by_cases hx : x ∈ seen
    · have hcont : seen.contains x = true := by simpa using hx
      simp only [pyDedupGo, List.filter_cons, hcont]
      rw [if_pos hx]
      simp [ih]
    · have hcont : seen.contains x = false := by
        cases hcase : seen.contains x with
        | false => rfl
        | true => exact absurd (by simpa using hcase) hx
      simp only [pyDedupGo, List.filter_cons, hcont]
      rw [if_neg hx]
      simp only [Bool.not_false, if_true]
      rw [keepFirsts, ih (x :: seen)]
      congr 1
      rw [List.filter_filter]
      apply congrArg keepFirsts
      apply List.filter_congr
      intro y _
      simp [List.contains_cons, Bool.not_or, Bool.and_comm, Bool.beq_eq_decide_eq]

theorem pyDedup_eq_keepFirsts (l : List RelPath) : pyDedup l = keepFirsts l := by
  unfold pyDedup
  rw [pyDedupGo_eq_keepFirsts]
  congr 1
  apply List.filter_eq_self.mpr
  intro a _
  simp

theorem mem_keepFirsts : ∀ (l : List RelPath) (a : RelPath),
    a ∈ keepFirsts l ↔ a ∈ l := by
  intro l
  induction l using keepFirsts.induct with
  | case1 =>
    intro a
    rw [keepFirsts]
  | case2 x xs ih =>
    intro a
    rw [keepFirsts]
    by_cases hax : a = x
    · subst hax
      simp
    · simp only [List.mem_cons, ih, List.mem_filter]
      constructor
      · intro h
        rcases h with h | h
        · exact Or.inl h
        · exact Or.inr h.1
      · intro h
        rcases h with h | h
        · exact Or.inl h
        · refine Or.inr ⟨h, ?_⟩
          simpa using hax

theorem nodup_keepFirsts : ∀ l : List RelPath, (keepFirsts l).Nodup := by
  intro l
  induction l using keepFirsts.induct with
  | case1 =>
    rw [keepFirsts]
    exact List.nodup_nil
  | case2 x xs ih =>
    rw [keepFirsts]
    rw [List.nodup_cons]
    refine ⟨?_, ih⟩
    intro hmem
    rw [mem_keepFirsts, List.mem_filter] at hmem
    simp at hmem

/-- C8: for every build-output tree, the include-directory and
generated-source lists returned by artifact discovery are duplicate-free
and equal the first-occurrence-wins compression of the raw discovery
order, losing no discovered path. -/
theorem claim_C8_dedup_first_seen (fs : ScannedTree) (profile : String) :
    (find_cxxbridge_artifacts fs profile).1.Nodup
    ∧ (find_cxxbridge_artifacts fs profile).2.Nodup
    ∧ (find_cxxbridge_artifacts fs profile).1
        = keepFirsts (find_cxxbridge_artifacts_raw fs profile).1
    ∧ (find_cxxbridge_artifacts fs profile).2
        = keepFirsts (find_cxxbridge_artifacts_raw fs profile).2
    ∧ (∀ p, p ∈ (find_cxxbridge_artifacts fs profile).1
        ↔ p ∈ (find_cxxbridge_artifacts_raw fs profile).1)
    ∧ (∀ p, p ∈ (find_cxxbridge_artifacts fs profile).2
        ↔ p ∈ (find_cxxbridge_artifacts_raw fs profile).2) := by
  have h1 : find_cxxbridge_artifacts fs profile
      = (keepFirsts (find_cxxbridge_artifacts_raw fs profile).1,
         keepFirsts (find_cxxbridge_artifacts_raw fs profile).2) := by
    show (pyDedup (find_cxxbridge_artifacts_raw fs profile).1,
        pyDedup (find_cxxbridge_artifacts_raw fs profile).2) = _
    rw [pyDedup_eq_keepFirsts, pyDedup_eq_keepFirsts]
  rw [h1]
  exact ⟨nodup_keepFirsts _, nodup_keepFirsts _, rfl, rfl,
    fun p => mem_keepFirsts _ p, fun p => mem_keepFirsts _ p⟩

end Doracxx
